import Mathlib

/-!
Verification of the MusicDownloads orchestration layer.

The definitions below are a shallow embedding of the Python sources:
`ConcurrentTasks.py` (the two worker pools), `FileCompression.py`
(the `AudioCompressor` class: identity resolution and the compression
retry loop), `NetworkOperations.py` (the download retry loop) and
`AudioTrackProcessing.py` (the tagging step).  Machine-level effects
(the filesystem, raised exceptions) are made explicit: a Python call
either returns a value or raises, which we model with `PyResult`;
directory state is passed explicitly where a claim is about it.
-/

namespace MusicDownloads

/-- Outcome of one Python call: a normal return, or a raised exception
carrying its message. -/
inductive PyResult (α : Type) where
  | ok (val : α)
  | exn (msg : String)
deriving DecidableEq

/-- Whether a pool task outcome is a normal return. -/
def isOkOutcome {α : Type} : PyResult α → Bool
  | .ok _ => true
  | .exn _ => false

/-! ## Backoff and timeout escalation

`FileCompression.py` lines 322-330 (the `except` arm of the compression
retry loop) and `NetworkOperations.py` lines 148-156 (the tail of the
download retry loop). -/

/-- Line 324 of `FileCompression.py`: `wait_time = min(5 ** count, 30)`,
the wait before compression retry number `n`. -/
def compressWait (n : Nat) : Nat := min (5 ^ n) 30

/-- Line 330 of `FileCompression.py`:
`self.timeouts[key] = min(self.timeouts[key] * 2, 300)`, applied to every
stage timeout after a failed compression attempt. -/
def compressEscalate (t : Nat) : Nat := min (t * 2) 300

/-- Line 154 of `NetworkOperations.py`: `waiting_time = min(2 ** count, 5)`,
the wait before download retry number `n`. -/
def downloadWait (n : Nat) : Nat := min (2 ^ n) 5

/-- Line 153 of `NetworkOperations.py`: `timeout += min(3 ** count, 10)`.
The download timeout after attempt `n` is the previous timeout `t` plus
an increment; the escalation is additive and depends on the attempt
number, and the resulting timeout has no upper cap. -/
def downloadEscalate (t n : Nat) : Nat := t + min (3 ^ n) 10

/-- C2 counterexample: the download-site timeout escalation is not of the
form `min (t * growthFactor) capTimeout` for any growth factor and cap:
starting from timeout 60, attempt 1 escalates it to 63 and, had the
timeout still been 60, attempt 2 would escalate it to 69, so the escalated
value is not even a function of `t` alone. -/
theorem C2_counterexample :
    downloadEscalate 60 1 = 63 ∧ downloadEscalate 60 2 = 69 ∧
    ¬ ∃ g cap : Nat, downloadEscalate 60 1 = min (60 * g) cap ∧
      downloadEscalate 60 2 = min (60 * g) cap := by
  refine ⟨rfl, rfl, ?_⟩
  rintro ⟨g, cap, h1, h2⟩
  simp only [downloadEscalate] at h1 h2
  omega

/-- C2 (amended): both wait functions have the contractual shape
`min (base ^ n) capWait`, are non-decreasing in `n`, never exceed their
cap and stay constant once the cap is reached; the compression-site
timeout escalation is `min (t * 2) 300`, non-decreasing for `t ≤ 300`,
capped at 300 and constant once capped; but the download-site timeout
escalation is additive, `t + min (3 ^ n) 10`: it never decreases yet it
is not capped and is not a function of the previous timeout alone. -/
theorem C2_amended (n t : Nat) (ht : t ≤ 300) :
    compressWait n = min (5 ^ n) 30 ∧
    compressWait n ≤ compressWait (n + 1) ∧
    compressWait n ≤ 30 ∧
    (compressWait n = 30 → compressWait (n + 1) = 30) ∧
    downloadWait n = min (2 ^ n) 5 ∧
    downloadWait n ≤ downloadWait (n + 1) ∧
    downloadWait n ≤ 5 ∧
    (downloadWait n = 5 → downloadWait (n + 1) = 5) ∧
    t ≤ compressEscalate t ∧
    compressEscalate t ≤ 300 ∧
    (compressEscalate t = 300 → compressEscalate (compressEscalate t) = 300) ∧
    t ≤ downloadEscalate t n ∧
    downloadEscalate t n = t + min (3 ^ n) 10 := by
  have h5 : 5 ^ n ≤ 5 ^ (n + 1) := Nat.pow_le_pow_right (by norm_num) (Nat.le_succ n)
  have h2 : 2 ^ n ≤ 2 ^ (n + 1) := Nat.pow_le_pow_right (by norm_num) (Nat.le_succ n)
  have h3 : 0 ≤ min (3 ^ n) 10 := Nat.zero_le _
  refine ⟨rfl, ?_, ?_, ?_, rfl, ?_, ?_, ?_, ?_, ?_, ?_, ?_, rfl⟩ <;>
    simp only [compressWait, compressEscalate, downloadWait, downloadEscalate] <;>
    omega

/-- C2 witness: the amended statement evaluated at attempt 1 and
timeout 60 (the default download timeout). -/
theorem C2_witness :
    compressWait 1 = min (5 ^ 1) 30 ∧
    compressWait 1 ≤ compressWait 2 ∧
    compressWait 1 ≤ 30 ∧
    (compressWait 1 = 30 → compressWait 2 = 30) ∧
    downloadWait 1 = min (2 ^ 1) 5 ∧
    downloadWait 1 ≤ downloadWait 2 ∧
    downloadWait 1 ≤ 5 ∧
    (downloadWait 1 = 5 → downloadWait 2 = 5) ∧
    60 ≤ compressEscalate 60 ∧
    compressEscalate 60 ≤ 300 ∧
    (compressEscalate 60 = 300 → compressEscalate (compressEscalate 60) = 300) ∧
    60 ≤ downloadEscalate 60 1 ∧
    downloadEscalate 60 1 = 60 + min (3 ^ 1) 10 :=
  C2_amended 1 60 (by norm_num)

/-! ## Identity resolution

`AudioCompressor.get_file_identifier` (`FileCompression.py` 146-157) and
`AudioCompressor.get_existing_identifiers` (160-172). -/

/-- Outcome of the call `ID3(file_path)` in `get_file_identifier`: the
parsed TIT3 frame list, an `ID3NoHeaderError`, or any other raised
exception (for instance `FileNotFoundError` when the file is gone). -/
inductive ID3Load where
  | tags (tit3 : List String)
  | noHeader
  | ioError (msg : String)
deriving DecidableEq

/-- A file as the identity resolver sees it: its name, whether it is
still on disk (so that `os.path.getsize` succeeds), the outcome of
loading its ID3 header, and its byte size. -/
structure FileModel where
  name : String
  onDisk : Bool
  id3 : ID3Load
  byteSize : Nat
deriving DecidableEq

/-- The call `os.path.getsize(file_path)`: the byte size, or a raised
`FileNotFoundError` when the file is no longer on disk. -/
def getsize (f : FileModel) : PyResult Nat :=
  if f.onDisk then .ok f.byteSize else .exn "FileNotFoundError"

/-- `AudioCompressor.get_file_identifier` (`FileCompression.py` 146-157):
try to return `str(audio.getall("TIT3")[0])`; an `ID3NoHeaderError`, an
empty TIT3 frame list (whose `[0]` raises `IndexError`, caught by the
generic `except`) and any other load error all fall back to
`str(os.path.getsize(file_path))`.  The fallback itself is not guarded:
if `getsize` raises, the exception propagates to the caller. -/
def get_file_identifier (f : FileModel) : PyResult String :=
  match f.id3 with
  | .tags (s :: _) => .ok s
  | .tags [] =>
      match getsize f with
      | .ok n => .ok (toString n)
      | .exn e => .exn e
  | .noHeader =>
      match getsize f with
      | .ok n => .ok (toString n)
      | .exn e => .exn e
  | .ioError _ =>
      match getsize f with
      | .ok n => .ok (toString n)
      | .exn e => .exn e

/-- The body of the loop of `get_existing_identifiers`: the identifier of
one file when resolution returns, and nothing when it raises (the loop
catches the exception and skips the file). -/
def identifierOf (f : FileModel) : Option String :=
  match get_file_identifier f with
  | .ok s => some s
  | .exn _ => none

/-- `AudioCompressor.get_existing_identifiers` (`FileCompression.py`
160-172): the identifiers of the files of the output directory; a file
whose resolution raises is logged and skipped. -/
def get_existing_identifiers (outs : List FileModel) : List String :=
  outs.filterMap identifierOf

theorem identifierOf_eq_some (f : FileModel) (s : String) :
    identifierOf f = some s ↔ get_file_identifier f = .ok s := by
  cases h : get_file_identifier f <;> simp [identifierOf, h]

theorem mem_get_existing_identifiers (outs : List FileModel) (s : String) :
    s ∈ get_existing_identifiers outs ↔
      ∃ g ∈ outs, get_file_identifier g = .ok s := by
  simp only [get_existing_identifiers, List.mem_filterMap, identifierOf_eq_some]

/-- C4 counterexample: on a path whose file has vanished between listing
and resolution, `ID3` raises `FileNotFoundError`, the generic handler
falls back to `os.path.getsize`, and that call raises: the identifier
operation does raise, contradicting the claim that it never does. -/
theorem C4_counterexample :
    get_file_identifier ⟨"gone.mp3", false, .ioError "FileNotFoundError", 0⟩ =
      .exn "FileNotFoundError" := rfl

/-- C4 (amended): provided the byte size of the file is obtainable (the
file is still on disk), the identifier operation never raises: it returns
the first TIT3 frame when the tag header loads and the frame is present,
and otherwise falls back to the byte length rendered as a string; only a
failure of the size query itself propagates as an exception. -/
theorem C4_amended (f : FileModel) (h : f.onDisk = true) :
    get_file_identifier f =
      .ok (match f.id3 with
        | .tags (s :: _) => s
        | _ => toString f.byteSize) := by
  cases hid : f.id3 with
  | tags l =>
      cases l with
      | nil => simp [get_file_identifier, getsize, hid, h]
      | cons s rest => simp [get_file_identifier, hid]
  | noHeader => simp [get_file_identifier, getsize, hid, h]
  | ioError e => simp [get_file_identifier, getsize, hid, h]

/-- C4 witness: the amended statement evaluated on a file that is on disk
and carries the provenance frame. -/
theorem C4_witness :
    get_file_identifier ⟨"a.mp3", true, .tags ["prov-a"], 512⟩ = .ok "prov-a" :=
  C4_amended ⟨"a.mp3", true, .tags ["prov-a"], 512⟩ rfl

/-! ## Compression-pool submission

The submission loop of `concurrent_compression` (`ConcurrentTasks.py`
164-187): the existing-identifier set is computed once before the loop,
then every file of the input directory whose identifier is already in
the set is skipped and every other file is submitted to the pool. -/

/-- The submission loop of `concurrent_compression` over the listed input
files, given the existing-identifier set computed up front.  For each
file the identifier is resolved (an exception there propagates out of the
run, since the call on line 173 is unguarded); a file whose identifier is
in `existing` is skipped, every other file is submitted.  The result is
the list of submitted files when no resolution raised. -/
def submitFiles (existing : List String) : List FileModel → PyResult (List FileModel)
  | [] => .ok []
  | f :: rest =>
      match get_file_identifier f, submitFiles existing rest with
      | .exn e, _ => .exn e
      | .ok _, .exn e => .exn e
      | .ok s, .ok l => if s ∈ existing then .ok l else .ok (f :: l)

/-- Membership in the submitted list: a file is submitted exactly when it
is a candidate whose identifier resolves to a string outside the
existing-identifier set. -/
theorem mem_submitFiles (existing : List String) :
    ∀ (inputs l : List FileModel), submitFiles existing inputs = .ok l →
      ∀ f : FileModel, f ∈ l ↔ f ∈ inputs ∧
        ∃ s, get_file_identifier f = .ok s ∧ s ∉ existing := by
  intro inputs
  induction inputs with
  | nil =>
      intro l h f
      simp only [submitFiles, PyResult.ok.injEq] at h
      subst h
      simp
  | cons g rest ih =>
      intro l h f
      cases hg : get_file_identifier g with
      | exn e =>
          simp only [submitFiles, hg] at h
          exact PyResult.noConfusion h
      | ok s =>
          cases hrec : submitFiles existing rest with
          | exn e =>
              simp only [submitFiles, hg, hrec] at h
              exact PyResult.noConfusion h
          | ok l0 =>
              simp only [submitFiles, hg, hrec] at h
              by_cases hs : s ∈ existing
              · rw [if_pos hs, PyResult.ok.injEq] at h
                rw [← h, ih l0 hrec f]
                constructor
                · rintro ⟨hf, t, ht, hnt⟩
                  exact ⟨List.mem_cons_of_mem _ hf, t, ht, hnt⟩
                · rintro ⟨hf, t, ht, hnt⟩
                  rcases List.mem_cons.mp hf with hfg | hfr
                  · rw [hfg, hg, PyResult.ok.injEq] at ht
                    exact absurd (ht ▸ hs) hnt
                  · exact ⟨hfr, t, ht, hnt⟩
              · rw [if_neg hs, PyResult.ok.injEq] at h
                rw [← h]
                constructor
                · intro hfl
                  rcases List.mem_cons.mp hfl with hfg | hfl0
                  · rw [hfg]
                    exact ⟨List.mem_cons_self g rest, s, hg, hs⟩
                  · obtain ⟨hf, t, ht, hnt⟩ := (ih l0 hrec f).mp hfl0
                    exact ⟨List.mem_cons_of_mem _ hf, t, ht, hnt⟩
                · rintro ⟨hf, t, ht, hnt⟩
                  rcases List.mem_cons.mp hf with hfg | hfr
                  · rw [hfg]
                    exact List.mem_cons_self g l0
                  · exact List.mem_cons_of_mem _ ((ih l0 hrec f).mpr ⟨hfr, t, ht, hnt⟩)

/-- C6 (confirmed): a candidate whose identifier equals the identifier of
some file already present in the output directory at the start of the run
is never in the submitted list. -/
theorem C6_never_submitted (inputs outs l : List FileModel) (f : FileModel)
    (s : String) (hid : get_file_identifier f = .ok s)
    (hout : ∃ g ∈ outs, get_file_identifier g = .ok s)
    (hrun : submitFiles (get_existing_identifiers outs) inputs = .ok l) :
    f ∉ l := by
  intro hfl
  obtain ⟨hf, t, ht, hnt⟩ := (mem_submitFiles _ inputs l hrun f).mp hfl
  rw [hid, PyResult.ok.injEq] at ht
  subst ht
  exact hnt ((mem_get_existing_identifiers outs s).mpr hout)

/-- C6 witness: one candidate carrying identifier `x`, one existing output
carrying identifier `x`; the run submits nothing and the candidate is not
in the submitted list. -/
theorem C6_witness :
    (⟨"a.mp3", true, .tags ["x"], 100⟩ : FileModel) ∉ ([] : List FileModel) :=
  C6_never_submitted [⟨"a.mp3", true, .tags ["x"], 100⟩]
    [⟨"old.mp3", true, .tags ["x"], 90⟩] []
    ⟨"a.mp3", true, .tags ["x"], 100⟩ "x" rfl
    ⟨⟨"old.mp3", true, .tags ["x"], 90⟩, by simp, rfl⟩ (by decide)

/-- C1 counterexample: two distinct candidates share the identifier `x`,
the output directory is empty, and the run submits both of them, so the
pool processes two files of equal ContentIdentifier in one run. -/
theorem C1_counterexample :
    submitFiles (get_existing_identifiers [])
        [⟨"a.mp3", true, .tags ["x"], 1⟩, ⟨"b.mp3", true, .tags ["x"], 2⟩] =
      .ok [⟨"a.mp3", true, .tags ["x"], 1⟩, ⟨"b.mp3", true, .tags ["x"], 2⟩] ∧
    get_file_identifier ⟨"a.mp3", true, .tags ["x"], 1⟩ = .ok "x" ∧
    get_file_identifier ⟨"b.mp3", true, .tags ["x"], 2⟩ = .ok "x" ∧
    (⟨"a.mp3", true, .tags ["x"], 1⟩ : FileModel) ≠ ⟨"b.mp3", true, .tags ["x"], 2⟩ := by
  refine ⟨by decide, rfl, rfl, by decide⟩

/-- C1 (amended): deduplication is only against the outputs existing at
the start of the run: a file is submitted exactly when it is a candidate
whose identifier resolves and is carried by no existing output.  In
particular no candidate whose identifier matches an existing output is
processed, but several candidates sharing an identifier absent from the
outputs are all submitted in the same run. -/
theorem C1_dedup_only_against_outputs (inputs outs l : List FileModel)
    (hrun : submitFiles (get_existing_identifiers outs) inputs = .ok l)
    (f : FileModel) :
    f ∈ l ↔ f ∈ inputs ∧ ∃ s, get_file_identifier f = .ok s ∧
      ¬ ∃ g ∈ outs, get_file_identifier g = .ok s := by
  rw [mem_submitFiles _ inputs l hrun f]
  constructor
  · rintro ⟨hf, s, hs, hns⟩
    exact ⟨hf, s, hs, fun hex => hns ((mem_get_existing_identifiers outs s).mpr hex)⟩
  · rintro ⟨hf, s, hs, hns⟩
    exact ⟨hf, s, hs, fun hmem => hns ((mem_get_existing_identifiers outs s).mp hmem)⟩

/-- C1 witness: one candidate with identifier `x`, one output with
identifier `y`; the candidate is submitted, and the characterization
holds at that run. -/
theorem C1_witness :
    (⟨"a.mp3", true, .tags ["x"], 1⟩ : FileModel) ∈
        [(⟨"a.mp3", true, .tags ["x"], 1⟩ : FileModel)] ↔
      (⟨"a.mp3", true, .tags ["x"], 1⟩ : FileModel) ∈
          [(⟨"a.mp3", true, .tags ["x"], 1⟩ : FileModel)] ∧
        ∃ s, get_file_identifier ⟨"a.mp3", true, .tags ["x"], 1⟩ = .ok s ∧
          ¬ ∃ g ∈ [(⟨"old.mp3", true, .tags ["y"], 9⟩ : FileModel)],
            get_file_identifier g = .ok s :=
  C1_dedup_only_against_outputs [⟨"a.mp3", true, .tags ["x"], 1⟩]
    [⟨"old.mp3", true, .tags ["y"], 9⟩] [⟨"a.mp3", true, .tags ["x"], 1⟩]
    (by decide) ⟨"a.mp3", true, .tags ["x"], 1⟩

/-! ## Compression retry loop

`AudioCompressor.compress` (`FileCompression.py` 276-339) and
`compress_task` (`ConcurrentTasks.py` 117-141).  One attempt is the body
of the `try` on lines 303-321: browser setup, page load, upload, start
compression, download of the result; a stage failure raises and the
`except` arm of the loop catches it, waits, escalates the timeouts and
retries.  The attempt outcomes are abstracted as a function from the
attempt number to a `PyResult`. -/

/-- The `for count in range(1, retry + 1)` loop of `compress`, counting
from attempt `n` with `k` attempts left.  A successful attempt returns
`True` at once; a raising attempt is caught by the `except` arm and the
loop continues; on exhaustion the loop falls through to `return False`.
The second component is the number of attempts actually run. -/
def compressLoop (attempts : Nat → PyResult Unit) : Nat → Nat → Bool × Nat
  | _, 0 => (false, 0)
  | n, k + 1 =>
      match attempts n with
      | .ok _ => (true, 1)
      | .exn _ =>
          let r := compressLoop attempts (n + 1) k
          (r.1, r.2 + 1)

/-- The arguments of one `compress` call: the up-front path checks of
lines 287-293 and the resolved retry bound. -/
structure CompressArgs where
  inputIsFile : Bool
  outputIsDir : Bool
  retry : Nat
deriving DecidableEq

/-- `AudioCompressor.compress` (276-339): invalid paths return `False`
before the loop; otherwise the retry loop runs from attempt 1 with
`retry` attempts, and exhaustion returns `False`. -/
def compress (attempts : Nat → PyResult Unit) (a : CompressArgs) : Bool :=
  if ¬ a.inputIsFile then false
  else if ¬ a.outputIsDir then false
  else (compressLoop attempts 1 a.retry).1

/-- The number of attempts a `compress` call runs. -/
def compressAttempts (attempts : Nat → PyResult Unit) (a : CompressArgs) : Nat :=
  if ¬ a.inputIsFile then 0
  else if ¬ a.outputIsDir then 0
  else (compressLoop attempts 1 a.retry).2

/-- `compress_task` (`ConcurrentTasks.py` 117-141): the task runs
`compress` inside `try`/`except`; a raised exception is logged and
converted to `False`, so the task boundary always yields a Boolean. -/
def compress_task (r : PyResult Bool) : PyResult Bool :=
  match r with
  | .ok b => .ok b
  | .exn _ => .ok false

theorem compressLoop_all_fail (attempts : Nat → PyResult Unit) :
    ∀ k n, (∀ m, n ≤ m → m < n + k → ∃ e, attempts m = .exn e) →
      compressLoop attempts n k = (false, k) := by
  intro k
  induction k with
  | zero => intro n _; rfl
  | succ k ih =>
      intro n hfail
      obtain ⟨e, he⟩ := hfail n (Nat.le_refl n) (by omega)
      have hrest : ∀ m, n + 1 ≤ m → m < n + 1 + k → ∃ e, attempts m = .exn e := by
        intro m h1 h2
        exact hfail m (by omega) (by omega)
      simp only [compressLoop, he, ih (n + 1) hrest]

/-- C3 (confirmed): a file whose compression attempt fails every time
exhausts exactly the configured number of attempts, `compress` returns
`False` for it, and the task boundary never lets an exception escape:
`compress_task` maps every outcome, raising ones included, to a plain
Boolean, and on this run it yields `False`. -/
theorem C3_exhausts_and_returns_false (attempts : Nat → PyResult Unit)
    (a : CompressArgs) (hin : a.inputIsFile = true) (hout : a.outputIsDir = true)
    (hfail : ∀ m, 1 ≤ m → m ≤ a.retry → ∃ e, attempts m = .exn e) :
    compress attempts a = false ∧
    compressAttempts attempts a = a.retry ∧
    (∀ r : PyResult Bool, ∃ b, compress_task r = .ok b) ∧
    compress_task (.ok (compress attempts a)) = .ok false := by
  have hloop : compressLoop attempts 1 a.retry = (false, a.retry) :=
    compressLoop_all_fail attempts a.retry 1 (fun m h1 h2 => hfail m h1 (by omega))
  have hcomp : compress attempts a = false := by
    simp [compress, hin, hout, hloop]
  refine ⟨hcomp, ?_, ?_, ?_⟩
  · simp [compressAttempts, hin, hout, hloop]
  · intro r
    cases r with
    | ok b => exact ⟨b, rfl⟩
    | exn e => exact ⟨false, rfl⟩
  · rw [hcomp]
    rfl

/-- C3 witness: every attempt times out at the await-result stage and the
retry bound is the default 3: the run uses 3 attempts, returns `False`,
and the task boundary returns `.ok false`. -/
theorem C3_witness :
    compress (fun _ => .exn "TimeoutException") ⟨true, true, 3⟩ = false ∧
    compressAttempts (fun _ => .exn "TimeoutException") ⟨true, true, 3⟩ = 3 ∧
    (∀ r : PyResult Bool, ∃ b, compress_task r = .ok b) ∧
    compress_task
        (.ok (compress (fun _ => .exn "TimeoutException") ⟨true, true, 3⟩)) =
      .ok false :=
  C3_exhausts_and_returns_false (fun _ => .exn "TimeoutException")
    ⟨true, true, 3⟩ rfl rfl (fun _ _ _ => ⟨"TimeoutException", rfl⟩)

/-! ## Worker pools

`concurrent_process` (`ConcurrentTasks.py` 52-113) and the collection
loop of `concurrent_compression` (193-200).  Both pools submit one future
per item and then iterate `as_completed(futures)`, calling
`future.result()` inside `try`/`except`: an exception from one task is
logged and counted, the iteration goes on to the next future, and the
run returns `failed == 0` after every future has been awaited. -/

/-- The collection loop shared by both pools (lines 106-111 and 193-198):
await every outcome, add one to `failed` for each raising task. -/
def poolFailed {α : Type} (outcomes : List (PyResult α)) : Nat :=
  outcomes.foldl
    (fun failed r => match r with | .ok _ => failed | .exn _ => failed + 1) 0

/-- The configuration state `concurrent_process` checks before
submitting: presence of the five required keys, the two zipped lists, and
validity of the output directory. -/
structure ProcConfig where
  hasAllKeys : Bool
  urlList : List String
  nameList : List String
  outputIsDir : Bool

/-- The items `concurrent_process` submits: one per `zip(url_list,
name_list)` pair, and only when every up-front guard of lines 60-83
passes; a failed guard returns before anything is submitted. -/
def submittedItems (c : ProcConfig) : List (String × String) :=
  if c.hasAllKeys = true ∧ c.outputIsDir = true ∧
      c.urlList.length = c.nameList.length ∧
      c.urlList ≠ [] ∧ c.nameList ≠ [] then
    c.urlList.zip c.nameList
  else []

/-- `concurrent_process` (`ConcurrentTasks.py` 52-113): missing keys, an
invalid output directory, mismatched list lengths and empty lists each
return `False` up front; otherwise one download task per zipped pair is
submitted, the outcomes are collected, and the run returns
`failed == 0`. -/
def concurrent_process (c : ProcConfig)
    (outcome : String × String → PyResult Unit) : Bool :=
  if ¬ c.hasAllKeys then false
  else if ¬ c.outputIsDir then false
  else if c.urlList.length ≠ c.nameList.length then false
  else if c.urlList = [] ∨ c.nameList = [] then false
  else poolFailed ((c.urlList.zip c.nameList).map outcome) == 0

/-- `concurrent_compression` (`ConcurrentTasks.py` 145-200): invalid
directories return `False`; otherwise the existing-identifier set is
computed once, the submission loop runs, and the collection loop returns
`failed == 0` over the outcomes of the submitted tasks. -/
def concurrent_compression (inputDirOk outputDirOk : Bool)
    (inputs outs : List FileModel)
    (taskOutcome : FileModel → PyResult Bool) : PyResult Bool :=
  if ¬ inputDirOk then .ok false
  else if ¬ outputDirOk then .ok false
  else
    match submitFiles (get_existing_identifiers outs) inputs with
    | .exn e => .exn e
    | .ok l => .ok (poolFailed (l.map taskOutcome) == 0)

theorem poolFailed_foldl {α : Type} (l : List (PyResult α)) :
    ∀ acc : Nat,
      l.foldl
        (fun failed r => match r with | .ok _ => failed | .exn _ => failed + 1)
        acc = acc + l.countP (fun r => ! isOkOutcome r) := by
  induction l with
  | nil => intro acc; simp
  | cons r rest ih =>
      intro acc
      cases r with
      | ok v => simp [List.countP_cons, isOkOutcome, ih]
      | exn e =>
          simp only [List.foldl_cons, List.countP_cons, isOkOutcome, ih]
          simp
          omega

theorem poolFailed_eq_countP {α : Type} (l : List (PyResult α)) :
    poolFailed l = l.countP (fun r => ! isOkOutcome r) := by
  simpa using poolFailed_foldl l 0

theorem countP_ok_add_countP_not {α : Type} (l : List (PyResult α)) :
    l.countP (fun r => isOkOutcome r) + l.countP (fun r => ! isOkOutcome r) =
      l.length := by
  induction l with
  | nil => rfl
  | cons r rest ih =>
      cases r <;> simp [List.countP_cons, isOkOutcome] at ih ⊢ <;> omega

/-- C5 (confirmed): when the guards pass, the acquisition pool submits
one task per zipped pair and its run aggregates every one of them: the
failed count is the number of raising outcomes, raising and returning
outcomes together account for every submitted item, the count does not
depend on completion order, and the run returns success exactly when the
failed count is zero.  The compression pool returns `failed == 0` over
the outcomes of its submitted tasks in the same way. -/
theorem C5_pool_aggregation (c : ProcConfig)
    (outcome : String × String → PyResult Unit)
    (outs2 : List (PyResult Unit))
    (inputs outsD l : List FileModel) (taskOutcome : FileModel → PyResult Bool)
    (hkeys : c.hasAllKeys = true) (hdir : c.outputIsDir = true)
    (hlen : c.urlList.length = c.nameList.length) (hne : c.urlList ≠ [])
    (hperm : ((submittedItems c).map outcome).Perm outs2)
    (hsub : submitFiles (get_existing_identifiers outsD) inputs = .ok l) :
    (concurrent_process c outcome = true ↔
      poolFailed ((submittedItems c).map outcome) = 0) ∧
    poolFailed ((submittedItems c).map outcome) =
      ((submittedItems c).map outcome).countP (fun r => ! isOkOutcome r) ∧
    ((submittedItems c).map outcome).countP (fun r => isOkOutcome r) +
        poolFailed ((submittedItems c).map outcome) =
      (submittedItems c).length ∧
    poolFailed ((submittedItems c).map outcome) = poolFailed outs2 ∧
    concurrent_compression true true inputs outsD taskOutcome =
      .ok (poolFailed (l.map taskOutcome) == 0) := by
  have hne2 : c.nameList ≠ [] := by
    intro h0
    apply hne
    rw [← List.length_eq_zero, hlen, h0]
    rfl
  have hsubmitted : submittedItems c = c.urlList.zip c.nameList := by
    rw [submittedItems, if_pos ⟨hkeys, hdir, hlen, hne, hne2⟩]
  refine ⟨?_, poolFailed_eq_countP _, ?_, ?_, ?_⟩
  · rw [concurrent_process, hsubmitted]
    simp [hkeys, hdir, hlen, hne, hne2]
  · rw [poolFailed_eq_countP]
    have hlenmap : ((submittedItems c).map outcome).length =
        (submittedItems c).length := by simp
    rw [← hlenmap]
    exact countP_ok_add_countP_not _
  · rw [poolFailed_eq_countP, poolFailed_eq_countP]
    exact List.Perm.countP_eq _ hperm
  · rw [concurrent_compression]
    simp only [hsub]
    rfl

/-- C5 witness: two submitted items, the first returning and the second
raising, collected in reversed completion order; one compression input
submitted against an empty output directory. -/
theorem C5_witness :
    (concurrent_process ⟨true, ["u1", "u2"], ["n1", "n2"], true⟩
          (fun p => if p.1 = "u1" then .ok () else .exn "boom") = true ↔
      poolFailed ((submittedItems ⟨true, ["u1", "u2"], ["n1", "n2"], true⟩).map
          (fun p => if p.1 = "u1" then .ok () else .exn "boom")) = 0) ∧
    poolFailed ((submittedItems ⟨true, ["u1", "u2"], ["n1", "n2"], true⟩).map
        (fun p => if p.1 = "u1" then .ok () else .exn "boom")) =
      ((submittedItems ⟨true, ["u1", "u2"], ["n1", "n2"], true⟩).map
          (fun p => if p.1 = "u1" then .ok () else .exn "boom")).countP
        (fun r => ! isOkOutcome r) ∧
    ((submittedItems ⟨true, ["u1", "u2"], ["n1", "n2"], true⟩).map
        (fun p => if p.1 = "u1" then .ok () else .exn "boom")).countP
        (fun r => isOkOutcome r) +
        poolFailed ((submittedItems ⟨true, ["u1", "u2"], ["n1", "n2"], true⟩).map
          (fun p => if p.1 = "u1" then .ok () else .exn "boom")) =
      (submittedItems ⟨true, ["u1", "u2"], ["n1", "n2"], true⟩).length ∧
    poolFailed ((submittedItems ⟨true, ["u1", "u2"], ["n1", "n2"], true⟩).map
        (fun p => if p.1 = "u1" then .ok () else .exn "boom")) =
      poolFailed ([.exn "boom", .ok ()] : List (PyResult Unit)) ∧
    concurrent_compression true true [⟨"a.mp3", true, .tags ["x"], 1⟩] []
        (fun _ => .ok true) =
      .ok (poolFailed (([⟨"a.mp3", true, .tags ["x"], 1⟩] : List FileModel).map
          (fun _ => (.ok true : PyResult Bool))) == 0) :=
  C5_pool_aggregation ⟨true, ["u1", "u2"], ["n1", "n2"], true⟩
    (fun p => if p.1 = "u1" then .ok () else .exn "boom")
    [.exn "boom", .ok ()]
    [⟨"a.mp3", true, .tags ["x"], 1⟩] [] [⟨"a.mp3", true, .tags ["x"], 1⟩]
    (fun _ => .ok true)
    rfl rfl rfl (by decide) (by decide) (by decide)

/-- C8 counterexample: with every other guard satisfied but the item
lists empty, the acquisition pool run returns `False`, not success: the
code treats the empty list as an error, logging and rejecting it up
front. -/
theorem C8_counterexample :
    concurrent_process ⟨true, [], [], true⟩ (fun _ => .ok ()) = false := rfl

/-- C8 (amended): an empty item list is rejected by an up-front guard:
the pool run logs an error and returns failure without submitting any
task, rather than completing with zero attempted, zero failed and a
success result. -/
theorem C8_empty_rejected (c : ProcConfig)
    (outcome : String × String → PyResult Unit)
    (h : c.urlList = [] ∨ c.nameList = []) :
    concurrent_process c outcome = false ∧ submittedItems c = [] := by
  refine ⟨?_, ?_⟩ <;> rcases h with h | h <;>
    simp [concurrent_process, submittedItems, h]

/-- C8 witness: the amended statement at the concrete empty
configuration. -/
theorem C8_witness :
    concurrent_process ⟨true, [], [], true⟩ (fun _ => .ok ()) = false ∧
    submittedItems ⟨true, [], [], true⟩ = [] :=
  C8_empty_rejected ⟨true, [], [], true⟩ (fun _ => .ok ()) (Or.inl rfl)

/-! ## Acquisition pipeline scratch directory and download retries

`process_video_download` (`ConcurrentTasks.py` 20-48) runs the per-item
pipeline for one descriptor inside
`with tempfile.TemporaryDirectory() as temp_dir`, and `download_video`
(`NetworkOperations.py` 98-159) is its first step.  The set of live
scratch directories is passed explicitly as a list of directory ids. -/

/-- A fresh directory id, distinct from every live one. -/
def freshDir (live : List Nat) : Nat := live.foldr max 0 + 1

/-- The `for count in range(1, retry + 1)` loop of `download_video`
(lines 133-156), counting from attempt `n` with `k` attempts left: an
attempt whose subprocess exits with returncode 0 returns at once;
`TimeoutExpired` and every other exception are caught inside the loop;
on exhaustion the function falls through and returns normally.  The
second component is the number of attempts run. -/
def downloadLoop (attempts : Nat → Bool) : Nat → Nat → Bool × Nat
  | _, 0 => (false, 0)
  | n, k + 1 =>
      if attempts n then (true, 1)
      else
        let r := downloadLoop attempts (n + 1) k
        (r.1, r.2 + 1)

/-- `download_video` (98-159): an invalid output path returns before the
loop; otherwise the retry loop runs and the function returns `None` in
every case — exhausted retries are logged, never raised.  The payload
records whether a download succeeded and how many attempts ran. -/
def download_video (attempts : Nat → Bool) (outputIsDir : Bool)
    (retry : Nat) : PyResult (Bool × Nat) :=
  if ¬ outputIsDir then .ok (false, 0)
  else .ok (downloadLoop attempts 1 retry)

/-- `process_video_download` (20-48): the missing-key check returns
before any directory is made; otherwise a fresh scratch directory is
acquired, the three pipeline steps run in it, and the context manager
removes the directory on every exit path, normal or raising, before the
result leaves the call.  The function returns the body result together
with the live-directory list after the call. -/
def process_video_download (hasAllKeys : Bool) (body : PyResult Unit)
    (live : List Nat) : PyResult Unit × List Nat :=
  if ¬ hasAllKeys then (.ok (), live)
  else
    let d := freshDir live
    (body, (d :: live).erase d)

theorem downloadLoop_all_fail (attempts : Nat → Bool) :
    ∀ k n, (∀ m, n ≤ m → m < n + k → attempts m = false) →
      downloadLoop attempts n k = (false, k) := by
  intro k
  induction k with
  | zero => intro n _; rfl
  | succ k ih =>
      intro n hfail
      have he : attempts n = false := hfail n (Nat.le_refl n) (by omega)
      have hrest : ∀ m, n + 1 ≤ m → m < n + 1 + k → attempts m = false := by
        intro m h1 h2
        exact hfail m (by omega) (by omega)
      simp only [downloadLoop, he, ih (n + 1) hrest]
      rfl

/-- C7 (confirmed): on every exit path of the pipeline — the body
returning or raising, and in particular a download step that fails on
all of its attempts — the scratch directory acquired for the call is
removed again: the live-directory list after the call equals the list
before it.  A download step that always fails runs exactly `retry`
attempts and still returns normally, so the with-block body completes
and cleanup runs. -/
theorem C7_scratch_removed (hasAllKeys : Bool) (body : PyResult Unit)
    (live : List Nat) (attempts : Nat → Bool) (retry : Nat)
    (hfail : ∀ m, 1 ≤ m → m ≤ retry → attempts m = false) :
    (process_video_download hasAllKeys body live).2 = live ∧
    download_video attempts true retry = .ok (false, retry) := by
  constructor
  · cases hasAllKeys with
    | false => rfl
    | true =>
        show ((freshDir live :: live).erase (freshDir live)) = live
        exact List.erase_cons_head (freshDir live) live
  · have hloop : downloadLoop attempts 1 retry = (false, retry) :=
      downloadLoop_all_fail attempts retry 1 (fun m h1 h2 => hfail m h1 (by omega))
    simp [download_video, hloop]

/-- C7 witness: a pipeline whose body raises after a download step that
fails both of its attempts: the live-directory list is unchanged and the
download step runs exactly 2 attempts, returning normally. -/
theorem C7_witness :
    (process_video_download true (.exn "ProcessFailure") [7]).2 = [7] ∧
    download_video (fun _ => false) true 2 = .ok (false, 2) :=
  C7_scratch_removed true (.exn "ProcessFailure") [7] (fun _ => false) 2
    (fun _ _ _ => rfl)

/-! ## Tagging

`audio_track_processing` (`AudioTrackProcessing.py` 22-111): load the ID3
tag of the produced file, validate and read the cover image, delete the
seven non-provenance frames, add a TIT3 provenance frame only when none
is present, add the new frames, and save. -/

/-- Default tag values, `AudioTrackProcessing.py` lines 15-19. -/
def DEFAULT_ENCODER : String := "YKDX"

/-- Default publisher tag value. -/
def DEFAULT_PUBLISHER : String := "YKDX"

/-- Default artist tag value. -/
def DEFAULT_ARTIST : String := "EOZT-YKDX出品"

/-- Default copyright tag value. -/
def DEFAULT_COPYRIGHT : String := "©EOZT 2021-2025"

/-- Default author URL tag value. -/
def DEFAULT_AUTHOR_URL : String := "https://github.com/EOZT-YKDX"

/-- The ID3 frame state of one audio file: for each frame kind the list
of frame payloads, as `getall` returns them. -/
structure ID3Tags where
  tit3 : List String
  tdrc : List String
  tpe1 : List String
  tenc : List String
  apic : List String
  tpub : List String
  woar : List String
  tcop : List String
deriving DecidableEq

/-- Outcome of validating and reading the cover-image input (lines
42-59): the path raises `FileNotFoundError` from `guess_mime`/`open`,
`filetype.is_image` rejects the content, the read raises some other
exception, or the bytes and mime type are obtained. -/
inductive CoverStatus where
  | missing
  | notImage
  | readError (msg : String)
  | readable (data : String) (mime : String)
deriving DecidableEq

/-- The caller-supplied track-information fields used by the tagging
step; a missing field falls back to the module default. -/
structure TrackInfo where
  artist : Option String
  encoder : Option String
  publisher : Option String
  authorUrl : Option String
  copyright : Option String
deriving DecidableEq

/-- The environment of one `audio_track_processing` call: the base name
of the file, whether `ID3(input_file)` loads, the cover-image outcome,
whether `audio_file.save` succeeds, and the current year used for the
TDRC frame. -/
structure TagEnv where
  fileName : String
  id3LoadOk : Bool
  cover : CoverStatus
  saveOk : Bool
  year : Nat
deriving DecidableEq

/-- The root of `os.path.splitext`: the name up to the last dot, where a
dot with no earlier non-dot character does not start an extension. -/
def splitext_root (s : String) : String :=
  let cs := s.toList
  let good := (List.range cs.length).filter (fun i =>
    cs.get? i = some '.' ∧
      ((List.range i).filter (fun j => ¬ (cs.get? j = some '.'))) ≠ [])
  match good.getLast? with
  | some i => String.mk (cs.take i)
  | none => s

/-- The in-memory tag state `audio_track_processing` builds on lines
62-102: the seven old frames TDRC, TPE1, TENC, TPUB, TCOP, APIC and WOAR
are deleted (TIT3 is not among them), a TIT3 frame holding the extension-
stripped base name is added only when `getall("TIT3")` is empty, and one
new frame of each other kind is added. -/
def newTags (t : ID3Tags) (fileName : String) (info : TrackInfo)
    (year : Nat) (coverData : String) : ID3Tags :=
  { tit3 := if t.tit3 = [] then [splitext_root fileName] else t.tit3
    tdrc := [toString year]
    tpe1 := [info.artist.getD DEFAULT_ARTIST]
    tenc := [info.encoder.getD DEFAULT_ENCODER]
    apic := [coverData]
    tpub := [info.publisher.getD DEFAULT_PUBLISHER]
    woar := [info.authorUrl.getD DEFAULT_AUTHOR_URL]
    tcop := [info.copyright.getD DEFAULT_COPYRIGHT] }

/-- `audio_track_processing` (22-111) as a map from the on-disk tag state
to the on-disk tag state after the call.  A failed tag load returns with
the file untouched; a missing, invalid or unreadable cover logs and
returns with no tag written; a failed save is caught and logged, leaving
the file unchanged; otherwise the new tag state is saved.  Every failure
path is caught inside the function, so the call always returns. -/
def audio_track_processing (env : TagEnv) (info : TrackInfo)
    (tags : ID3Tags) : PyResult ID3Tags :=
  if ¬ env.id3LoadOk then .ok tags
  else
    match env.cover with
    | .missing => .ok tags
    | .notImage => .ok tags
    | .readError _ => .ok tags
    | .readable data _ =>
        if env.saveOk then .ok (newTags tags env.fileName info env.year data)
        else .ok tags

/-- C9 (confirmed): when the cover-image input is missing, not a valid
image, or unreadable, the tagging step writes no tag — the tag state of
the file is unchanged — and returns normally instead of raising, so the
enclosing pipeline continues. -/
theorem C9_bad_cover_aborts_tagging (env : TagEnv) (info : TrackInfo)
    (tags : ID3Tags)
    (h : env.cover = .missing ∨ env.cover = .notImage ∨
      ∃ m, env.cover = .readError m) :
    audio_track_processing env info tags = .ok tags := by
  rcases h with h | h | ⟨m, h⟩ <;> cases hload : env.id3LoadOk <;>
    simp [audio_track_processing, h, hload]

/-- C9 witness: a cover input rejected by the image-type check leaves the
tag state of the file unchanged and the call returns normally. -/
theorem C9_witness :
    audio_track_processing ⟨"song.mp3", true, .notImage, true, 2025⟩
        ⟨none, none, none, none, none⟩
        ⟨["orig"], [], [], [], [], [], [], []⟩ =
      .ok ⟨["orig"], [], [], [], [], [], [], []⟩ :=
  C9_bad_cover_aborts_tagging ⟨"song.mp3", true, .notImage, true, 2025⟩
    ⟨none, none, none, none, none⟩ ⟨["orig"], [], [], [], [], [], [], []⟩
    (Or.inr (Or.inl rfl))

/-- C10 (confirmed): the tagging operation never deletes or overwrites an
existing TIT3 provenance frame — TIT3 is not among the cleared frame
kinds — and it adds a new TIT3 frame, holding the extension-stripped base
name of the file, only when the file carries no TIT3 frame. -/
theorem C10_tit3_preserved (env : TagEnv) (info : TrackInfo)
    (tags r : ID3Tags)
    (h : audio_track_processing env info tags = .ok r) :
    (tags.tit3 ≠ [] → r.tit3 = tags.tit3) ∧
    (tags.tit3 = [] →
      r.tit3 = [] ∨ r.tit3 = [splitext_root env.fileName]) := by
  cases hload : env.id3LoadOk with
  | false =>
      simp only [audio_track_processing, hload, Bool.not_false, if_pos,
        PyResult.ok.injEq, Bool.false_eq_true, not_false_eq_true, if_true] at h
      subst h
      exact ⟨fun _ => rfl, fun h0 => Or.inl h0⟩
  | true =>
      cases hcov : env.cover with
      | missing =>
          simp [audio_track_processing, hload, hcov] at h
          subst h
          exact ⟨fun _ => rfl, fun h0 => Or.inl h0⟩
      | notImage =>
          simp [audio_track_processing, hload, hcov] at h
          subst h
          exact ⟨fun _ => rfl, fun h0 => Or.inl h0⟩
      | readError m =>
          simp [audio_track_processing, hload, hcov] at h
          subst h
          exact ⟨fun _ => rfl, fun h0 => Or.inl h0⟩
      | readable data mime =>
          cases hsave : env.saveOk with
          | false =>
              simp [audio_track_processing, hload, hcov, hsave] at h
              subst h
              exact ⟨fun _ => rfl, fun h0 => Or.inl h0⟩
          | true =>
              simp [audio_track_processing, hload, hcov, hsave] at h
              subst h
              constructor
              · intro hne
                simp [newTags, hne]
              · intro hemp
                simp [newTags, hemp]

/-- C10 witness: a file already carrying the provenance frame `orig`
keeps exactly that frame through a full tagging run. -/
theorem C10_witness :
    ((⟨["orig"], [], [], [], [], [], [], []⟩ : ID3Tags).tit3 ≠ [] →
      (newTags ⟨["orig"], [], [], [], [], [], [], []⟩ "a.mp3"
          ⟨none, none, none, none, none⟩ 2025 "img").tit3 =
        (⟨["orig"], [], [], [], [], [], [], []⟩ : ID3Tags).tit3) ∧
    ((⟨["orig"], [], [], [], [], [], [], []⟩ : ID3Tags).tit3 = [] →
      (newTags ⟨["orig"], [], [], [], [], [], [], []⟩ "a.mp3"
          ⟨none, none, none, none, none⟩ 2025 "img").tit3 = [] ∨
      (newTags ⟨["orig"], [], [], [], [], [], [], []⟩ "a.mp3"
          ⟨none, none, none, none, none⟩ 2025 "img").tit3 =
        [splitext_root "a.mp3"]) :=
  C10_tit3_preserved ⟨"a.mp3", true, .readable "img" "image/png", true, 2025⟩
    ⟨none, none, none, none, none⟩ ⟨["orig"], [], [], [], [], [], [], []⟩
    (newTags ⟨["orig"], [], [], [], [], [], [], []⟩ "a.mp3"
      ⟨none, none, none, none, none⟩ 2025 "img") rfl

end MusicDownloads
